import Mathlib

/-!
Shallow embedding of the ClickHouse LLM-integration KNN scripts
(`ingest_chunks.py`, `query_knn.py`, `optimize_table.py` under
`2026/clickhouse_llm_integration_knn/`), with theorems settling the
specification's claims about ingestion, scoped KNN retrieval and the
OPTIMIZE-TABLE maintenance supervisor.
-/

/-- A row of the vector table; the fields follow the column list of the
insert call in `ingest_chunks.py` (lines 85-93):
`doc_id, chunk_id, content, embedding, source, tenant_id, ts`.
Timestamps are modelled as readings of an abstract monotone counter. -/
structure VectorRecord where
  doc_id : ℤ
  chunk_id : ℤ
  content : String
  embedding : List ℚ
  source : String
  tenant_id : ℤ
  ts : ℕ
deriving DecidableEq

/-- `TENANT_ID = 88` (`ingest_chunks.py` line 19, `query_knn.py` line 19). -/
def TENANT_ID : ℤ := 88

/-- `SOURCE = "meetup_workshop"` (`ingest_chunks.py` line 20). -/
def SOURCE : String := "meetup_workshop"

/-- `TOP_K = 5` (`query_knn.py` line 21). -/
def TOP_K : ℕ := 5

/-- The row-construction loop of `ingest_chunks.py` (lines 67-77): for each
`(i, (text, emb))` of `enumerate(zip(texts, embeddings))` one row is built
with `doc_id = 1`, `chunk_id = i` and `ts = datetime.now()`. The wall clock
is read once per chunk inside the loop body; `clock i` models the value
returned by the `i`-th `datetime.now()` call of the loop. -/
def ingestRows (texts : List String) (embeddings : List (List ℚ))
    (source : String) (tenant_id : ℤ) (clock : ℕ → ℕ) : List VectorRecord :=
  (texts.zip embeddings).enum.map fun p =>
    { doc_id := 1, chunk_id := (p.1 : ℤ), content := p.2.1, embedding := p.2.2,
      source := source, tenant_id := tenant_id, ts := clock p.1 }

/-- Outcome of one ingest call, per spec §4.2. -/
structure IngestResult where
  written_count : ℕ
  failed_chunk_ids : List ℕ
deriving DecidableEq

/-- One ingest call of `ingest_chunks.py`: all prepared rows are written by
the single `ch.insert` call (lines 82-94); the script has no per-chunk
failure path, so `written_count` is the number of prepared rows and no chunk
id is reported as failed. Returns the result together with the rows the
store receives. -/
def ingest (texts : List String) (embeddings : List (List ℚ))
    (source : String) (tenant_id : ℤ) (clock : ℕ → ℕ) :
    IngestResult × List VectorRecord :=
  let rows := ingestRows texts embeddings source tenant_id clock
  ({ written_count := rows.length, failed_chunk_ids := [] }, rows)

/-- The scope filter of the SQL in `query_knn.py` (lines 56-58):
`WHERE tenant_id = {TENANT_ID} AND source = '{SOURCE}'`. -/
def inScope (tenant_id : ℤ) (source : String) (r : VectorRecord) : Bool :=
  r.tenant_id == tenant_id && r.source == source

/-- The ordering of `ORDER BY score ASC` (`query_knn.py` line 59): rows are
compared by the score column alone; the SQL names no tie-break column. -/
def byScore (a b : String × ℚ) : Prop := a.2 ≤ b.2

instance : DecidableRel byScore := fun a b => inferInstanceAs (Decidable (a.2 ≤ b.2))

instance : IsTotal (String × ℚ) byScore := ⟨fun a b => le_total a.2 b.2⟩

instance : IsTrans (String × ℚ) byScore := ⟨fun _ _ _ h1 h2 => le_trans h1 h2⟩

/-- The KNN retrieval of `query_knn.py` (lines 51-63): select
`(content, cosineDistance(embedding, query_vector))` from the rows whose
`tenant_id` and `source` match the scope, order ascending by the score
column (a stable sort models the store's ORDER BY) and keep the first
`top_k` rows. The distance is a parameter `dist`: the store evaluates
`cosineDistance`, a function of the two vectors only, and no property below
depends on its numeric formula. -/
def knn_query (dist : List ℚ → List ℚ → ℚ) (store : List VectorRecord)
    (qemb : List ℚ) (tenant_id : ℤ) (source : String) (top_k : ℕ) :
    List (String × ℚ) :=
  (((store.filter (inScope tenant_id source)).map
      fun r => (r.content, dist r.embedding qemb)).insertionSort byScore).take top_k

/-- A concrete distance function used only to evaluate the model on closed
inputs (discrete distance: `0` for equal vectors, `1` otherwise); every
theorem below about `knn_query` holds for an arbitrary `dist`. -/
def demoDist (u v : List ℚ) : ℚ := if u = v then 0 else 1

/-- Error taxonomy of spec §4.3/§7 for the query path. -/
inductive QueryError where
  | scopeError
  | dimensionMismatchError
deriving DecidableEq

/-- Refinement model following the spec's words (§4.3), for comparison with
the code's `knn_query`: reject with `ScopeError` when the scope's source is
empty (the tenant id is an integer and has no empty value to test), reject
with `DimensionMismatchError` when the query embedding's dimension differs
from the deployment dimension `D`, and otherwise answer as the retrieval
does. -/
def knn_querySpec (D : ℕ) (dist : List ℚ → List ℚ → ℚ)
    (store : List VectorRecord) (qemb : List ℚ) (tenant_id : ℤ)
    (source : String) (top_k : ℕ) : Except QueryError (List (String × ℚ)) :=
  if source = "" then .error .scopeError
  else if qemb.length ≠ D then .error .dimensionMismatchError
  else .ok (knn_query dist store qemb tenant_id source top_k)

/-- Round-half-to-even integer rounding, the rounding rule of Python's
builtin `round`. -/
def roundHalfEven (q : ℚ) : ℤ :=
  if q - ⌊q⌋ = 1 / 2 then (if ⌊q⌋ % 2 = 0 then ⌊q⌋ else ⌊q⌋ + 1)
  else round q

/-- `round(x, 2)` as used in `optimize_table.py` line 62. -/
def round2 (q : ℚ) : ℚ := (roundHalfEven (q * 100) : ℚ) / 100

/-- Pool status record built by `check_background_pool_status`
(`optimize_table.py` lines 58-64). -/
structure PoolStatus where
  active_tasks : ℤ
  pool_size : ℤ
  free_threads : ℤ
  utilization_pct : ℚ
  is_full : Bool
deriving DecidableEq

/-- `check_background_pool_status` (`optimize_table.py` lines 39-66) as a
function of the two scalar metric reads `active_tasks` and `pool_size`:
`free_threads = pool_size - active_tasks`,
`utilization_pct = round(active_tasks / pool_size * 100, 2)` guarded by
`if pool_size > 0 else 0`, and `is_full = free_threads <= 0`. -/
def check_background_pool_status (active_tasks pool_size : ℤ) : PoolStatus :=
  let free_threads := pool_size - active_tasks
  let utilization_pct : ℚ :=
    if pool_size > 0 then (active_tasks : ℚ) / (pool_size : ℚ) * 100 else 0
  { active_tasks := active_tasks, pool_size := pool_size,
    free_threads := free_threads, utilization_pct := round2 utilization_pct,
    is_full := decide (free_threads ≤ 0) }

/-- The OPTIMIZE statement built by `optimize_table_sync`
(`optimize_table.py` lines 156-160). -/
def optimizeQuery (table_name : String) (final cleanup : Bool) : String :=
  "OPTIMIZE TABLE " ++ table_name ++ (if final then " FINAL" else "")
    ++ (if cleanup then " CLEANUP" else "")

/-- Default of the `final` keyword argument of `optimize_table_sync`
(`optimize_table.py` line 128). -/
def optimize_final_default : Bool := true

/-- Default of the `cleanup` keyword argument of `optimize_table_sync`
(`optimize_table.py` line 128). -/
def optimize_cleanup_default : Bool := false

/-- Observable steps of one `optimize_table_sync` run, in program order. -/
inductive Event where
  | pollStatus (s : PoolStatus)
  | setSyncMode
  | execOptimize (q : String)
  | reportSuccess (elapsed : ℚ)
  | reportFailure (elapsed : ℚ) (reason : String)
deriving DecidableEq

/-- The store as seen by one `optimize_table_sync` run: the metric values
returned by the `i`-th pool poll of the run, and the outcome of the OPTIMIZE
command (`none` = the command completes, `some reason` = it raises with that
message). -/
structure StoreClient where
  pollActive : ℕ → ℤ
  pollPool : ℕ → ℤ
  commandOutcome : String → Option String

/-- `optimize_table_sync` (`optimize_table.py` lines 128-185) as the trace
of its store interactions plus the returned boolean: poll the pool and print
it, set `alter_sync = 1`, execute the OPTIMIZE statement; on completion
report success with the elapsed time, poll the pool once more and return
`True`; on an exception catch it, report failure with the elapsed time and
the message and return `False` — the `except` branch neither re-polls nor
retries nor re-raises. `clock 0` and `clock 1` are the two `time.time()`
reads. -/
def optimize_table_sync (cl : StoreClient) (table_name : String)
    (final cleanup : Bool) (clock : ℕ → ℚ) : Bool × List Event :=
  let status := check_background_pool_status (cl.pollActive 0) (cl.pollPool 0)
  let q := optimizeQuery table_name final cleanup
  let elapsed := clock 1 - clock 0
  match cl.commandOutcome q with
  | none =>
      let statusAfter := check_background_pool_status (cl.pollActive 1) (cl.pollPool 1)
      (true, [.pollStatus status, .setSyncMode, .execOptimize q,
              .reportSuccess elapsed, .pollStatus statusAfter])
  | some reason =>
      (false, [.pollStatus status, .setSyncMode, .execOptimize q,
               .reportFailure elapsed reason])

/-- Whether an event is the execution of the OPTIMIZE command. -/
def isExec : Event → Bool
  | .execOptimize _ => true
  | _ => false

/-- Whether an event is a pool-status poll. -/
def isPoll : Event → Bool
  | .pollStatus _ => true
  | _ => false

/-- Number of pool polls a trace performs after its OPTIMIZE command. -/
def postCommandPolls (tr : List Event) : ℕ :=
  ((tr.dropWhile fun e => !(isExec e)).filter isPoll).length

/-- The membership test `response in ['yes', 'y']` of `main`
(`optimize_table.py` lines 214 and 218); its argument is the console answer
already normalised by `.strip().lower()` at the `input` call site. -/
def confirmed (response : String) : Bool :=
  response == "yes" || response == "y"

/-- The mode decision of `main` (`optimize_table.py` lines 212-221): the
first prompt offers plain FINAL; only when it is declined a second prompt
offers FINAL CLEANUP; declining both cancels the operation. Arguments are
the two normalised console answers; the result is the `(final, cleanup)`
flag pair passed to `optimize_table_sync`, or `none` when cancelled. -/
def mainModeDecision (response cleanup_response : String) : Option (Bool × Bool) :=
  if confirmed response then some (true, false)
  else if confirmed cleanup_response then some (true, true)
  else none

/-! Helper lemmas shared by the claim theorems. -/

/-- Every row built by the ingest loop carries the scope it was called with. -/
theorem mem_ingestRows_scope {texts : List String} {embeddings : List (List ℚ)}
    {source : String} {tenant_id : ℤ} {clock : ℕ → ℕ} {r : VectorRecord}
    (h : r ∈ ingestRows texts embeddings source tenant_id clock) :
    r.tenant_id = tenant_id ∧ r.source = source := by
  simp only [ingestRows, List.mem_map] at h
  obtain ⟨p, _, rfl⟩ := h
  exact ⟨rfl, rfl⟩

/-- Every row returned by `knn_query` is the projection of a stored record
matching the query's scope. -/
theorem knn_query_provenance (dist : List ℚ → List ℚ → ℚ)
    (store : List VectorRecord) (qemb : List ℚ) (tenant_id : ℤ)
    (source : String) (top_k : ℕ) (p : String × ℚ)
    (hp : p ∈ knn_query dist store qemb tenant_id source top_k) :
    ∃ r' ∈ store, r'.tenant_id = tenant_id ∧ r'.source = source
      ∧ p = (r'.content, dist r'.embedding qemb) := by
  have h1 := List.mem_of_mem_take hp
  rw [List.mem_insertionSort] at h1
  obtain ⟨r', hr', rfl⟩ := List.mem_map.mp h1
  obtain ⟨hmem, hsc⟩ := List.mem_filter.mp hr'
  simp only [inScope, Bool.and_eq_true, beq_iff_eq] at hsc
  exact ⟨r', hmem, hsc.1, hsc.2, rfl⟩

/-- A stored record matching the scope appears in the result whenever the
LIMIT is at least the store's size. -/
theorem mem_knn_query_of_scope (dist : List ℚ → List ℚ → ℚ)
    (store : List VectorRecord) (qemb : List ℚ) (tenant_id : ℤ)
    (source : String) (r : VectorRecord) (hr : r ∈ store)
    (hT : r.tenant_id = tenant_id) (hS : r.source = source)
    (k : ℕ) (hk : store.length ≤ k) :
    (r.content, dist r.embedding qemb) ∈ knn_query dist store qemb tenant_id source k := by
  unfold knn_query
  have hfil : r ∈ store.filter (inScope tenant_id source) :=
    List.mem_filter.mpr ⟨hr, by simp [inScope, hT, hS]⟩
  have hmap : (r.content, dist r.embedding qemb)
      ∈ (store.filter (inScope tenant_id source)).map
          (fun r => (r.content, dist r.embedding qemb)) :=
    List.mem_map_of_mem _ hfil
  have hlen : (((store.filter (inScope tenant_id source)).map
      (fun r => (r.content, dist r.embedding qemb))).insertionSort byScore).length ≤ k := by
    rw [List.length_insertionSort, List.length_map]
    exact le_trans (List.length_filter_le _ _) hk
  rw [List.take_of_length_le hlen]
  exact (List.mem_insertionSort byScore).mpr hmap

/-- C2: conservation law of ingestion. When the embedder returns one
embedding per chunk (the `embed_batch` contract), the ingest call reports
`written_count + |failed_chunk_ids| = |chunks|`: every chunk is written and
none is silently dropped by the `zip`. -/
theorem C2_ingest_conservation (texts : List String)
    (embeddings : List (List ℚ)) (source : String) (tenant_id : ℤ)
    (clock : ℕ → ℕ) (h : embeddings.length = texts.length) :
    (ingest texts embeddings source tenant_id clock).1.written_count
      + (ingest texts embeddings source tenant_id clock).1.failed_chunk_ids.length
      = texts.length := by
  simp [ingest, ingestRows, List.enum_length, List.length_zip, h]

/-- Witness for C2 at a concrete two-chunk batch. -/
theorem C2_ingest_conservation_witness :
    ([[ (1 : ℚ) ], [2]].length = ["a", "b"].length)
    ∧ (ingest ["a", "b"] [[1], [2]] "demo" 7 (fun i => i)).1.written_count
      + (ingest ["a", "b"] [[1], [2]] "demo" 7 (fun i => i)).1.failed_chunk_ids.length
      = ["a", "b"].length :=
  ⟨by decide, C2_ingest_conservation ["a", "b"] [[1], [2]] "demo" 7 (fun i => i) (by decide)⟩

/-- C3 counterexample: the wall clock is read once per chunk inside the
row-construction loop (`datetime.now()` at line 76), not once per batch: a
clock that advances by one between the two `now()` calls yields two rows of
the same ingest call with different `ts`, refuting "all chunks written by
that call carry one identical ts value". -/
theorem C3_counterexample :
    ¬ ∀ r ∈ ingestRows ["a", "b"] [[1], [2]] "demo" 7 (fun i => i),
        ∀ r' ∈ ingestRows ["a", "b"] [[1], [2]] "demo" 7 (fun i => i),
          r.ts = r'.ts := by
  decide

/-- C3 amended: each chunk's `ts` is the wall-clock reading taken while that
chunk's row is built — row `i` carries the value of the `i`-th `now()` call
— so one ingest call's rows share a single `ts` only when the clock does not
advance during the loop. -/
theorem C3_ts_sampled_per_chunk (texts : List String)
    (embeddings : List (List ℚ)) (source : String) (tenant_id : ℤ)
    (clock : ℕ → ℕ) :
    (ingestRows texts embeddings source tenant_id clock).map VectorRecord.ts
      = (List.range (min texts.length embeddings.length)).map clock := by
  unfold ingestRows
  rw [List.map_map]
  have hcomp : (VectorRecord.ts ∘ fun p : ℕ × (String × List ℚ) =>
      ({ doc_id := 1, chunk_id := (p.1 : ℤ), content := p.2.1,
         embedding := p.2.2, source := source, tenant_id := tenant_id,
         ts := clock p.1 } : VectorRecord)) = clock ∘ Prod.fst := rfl
  rw [hcomp, ← List.map_map, List.enum_map_fst, List.length_zip]

/-- C10: the pool-status computation is total at `pool_size = 0`: the guard
`if pool_size > 0 else 0` avoids the division, and the status reads
`utilization_pct = 0`, `free_threads = -active_tasks`, `is_full = true`
whenever `active_tasks ≥ 0`. -/
theorem C10_pool_size_zero_total (active_tasks : ℤ) (h : 0 ≤ active_tasks) :
    check_background_pool_status active_tasks 0
      = { active_tasks := active_tasks, pool_size := 0,
          free_threads := -active_tasks, utilization_pct := 0,
          is_full := true } := by
  simp only [check_background_pool_status, round2, roundHalfEven,
    PoolStatus.mk.injEq]
  norm_num
  exact h

/-- Witness for C10 at `active_tasks = 5`. -/
theorem C10_pool_size_zero_total_witness :
    ((0 : ℤ) ≤ 5)
    ∧ check_background_pool_status 5 0
      = { active_tasks := 5, pool_size := 0, free_threads := -5,
          utilization_pct := 0, is_full := true } :=
  ⟨by decide, C10_pool_size_zero_total 5 (by decide)⟩

/-- C1: tenant-scope round trip and isolation. A record ingested under scope
`(tenant_id = T, source = S)` and present in the store is returned by a
`knn_query` under `(T, S)` whose LIMIT covers the store, and under any
different scope `(T', S')` every returned row is the projection of a record
carrying scope `(T', S')` — never of the ingested record. -/
theorem C1_scope_round_trip_and_isolation (dist : List ℚ → List ℚ → ℚ)
    (store : List VectorRecord) (qemb : List ℚ) (texts : List String)
    (embeddings : List (List ℚ)) (clock : ℕ → ℕ) (T : ℤ) (S : String)
    (r : VectorRecord) (hing : r ∈ (ingest texts embeddings S T clock).2)
    (hr : r ∈ store) :
    ((r.content, dist r.embedding qemb) ∈ knn_query dist store qemb T S store.length)
    ∧ ∀ T' S' k, ¬(T' = T ∧ S' = S) →
        ∀ p ∈ knn_query dist store qemb T' S' k,
          ∃ r' ∈ store, r'.tenant_id = T' ∧ r'.source = S' ∧ r' ≠ r
            ∧ p = (r'.content, dist r'.embedding qemb) := by
  obtain ⟨hT, hS⟩ := mem_ingestRows_scope hing
  refine ⟨mem_knn_query_of_scope dist store qemb T S r hr hT hS store.length le_rfl, ?_⟩
  intro T' S' k hne p hp
  obtain ⟨r', hr'mem, hT', hS', hpe⟩ :=
    knn_query_provenance dist store qemb T' S' k p hp
  refine ⟨r', hr'mem, hT', hS', ?_, hpe⟩
  rintro rfl
  exact hne ⟨hT'.symm.trans hT, hS'.symm.trans hS⟩

/-- Witness for C1: a one-record store ingested under `(7, "demo")`. -/
theorem C1_scope_round_trip_and_isolation_witness :
    (((⟨1, 0, "hello", [1, 2], "demo", 7, 0⟩ : VectorRecord)
        ∈ (ingest ["hello"] [[1, 2]] "demo" 7 (fun _ => 0)).2)
      ∧ ((⟨1, 0, "hello", [1, 2], "demo", 7, 0⟩ : VectorRecord)
        ∈ [(⟨1, 0, "hello", [1, 2], "demo", 7, 0⟩ : VectorRecord)]))
    ∧ ((("hello", demoDist [1, 2] [0, 0])
        ∈ knn_query demoDist [⟨1, 0, "hello", [1, 2], "demo", 7, 0⟩] [0, 0] 7 "demo"
            [(⟨1, 0, "hello", [1, 2], "demo", 7, 0⟩ : VectorRecord)].length)
      ∧ ∀ T' S' k, ¬(T' = 7 ∧ S' = "demo") →
          ∀ p ∈ knn_query demoDist [⟨1, 0, "hello", [1, 2], "demo", 7, 0⟩] [0, 0] T' S' k,
            ∃ r' ∈ [(⟨1, 0, "hello", [1, 2], "demo", 7, 0⟩ : VectorRecord)],
              r'.tenant_id = T' ∧ r'.source = S'
              ∧ r' ≠ (⟨1, 0, "hello", [1, 2], "demo", 7, 0⟩ : VectorRecord)
              ∧ p = (r'.content, demoDist r'.embedding [0, 0])) :=
  ⟨⟨by decide, by decide⟩,
    C1_scope_round_trip_and_isolation demoDist
      [⟨1, 0, "hello", [1, 2], "demo", 7, 0⟩] [0, 0] ["hello"] [[1, 2]]
      (fun _ => 0) 7 "demo" ⟨1, 0, "hello", [1, 2], "demo", 7, 0⟩
      (by decide) (by decide)⟩

/-- C4: for `top_k > 0`, the query result is ordered non-decreasing in the
score column, has at most `top_k` rows, and when fewer matching records
exist the result is exactly the smaller set (the function is total: no
"not enough data" error path exists). -/
theorem C4_result_sorted_within_limit (dist : List ℚ → List ℚ → ℚ)
    (store : List VectorRecord) (qemb : List ℚ) (tenant_id : ℤ)
    (source : String) (top_k : ℕ) (hk : 0 < top_k) :
    List.Sorted byScore (knn_query dist store qemb tenant_id source top_k)
    ∧ (knn_query dist store qemb tenant_id source top_k).length ≤ top_k
    ∧ ((store.filter (inScope tenant_id source)).length < top_k →
        (knn_query dist store qemb tenant_id source top_k).length
          = (store.filter (inScope tenant_id source)).length) := by
  unfold knn_query
  constructor
  · exact List.Pairwise.sublist (List.take_sublist _ _)
      (List.sorted_insertionSort byScore _)
  constructor
  · rw [List.length_take, List.length_insertionSort, List.length_map]
    exact min_le_left _ _
  · intro hlt
    rw [List.length_take, List.length_insertionSort, List.length_map]
    exact min_eq_right (le_of_lt hlt)

/-- Witness for C4: a two-record store under scope `(7, "demo")` queried
with `top_k = 1`, and a LIMIT larger than the scope with `top_k = 5`. -/
theorem C4_result_sorted_within_limit_witness :
    (0 < 1)
    ∧ (List.Sorted byScore
        (knn_query demoDist
          [⟨1, 0, "A", [1], "demo", 7, 0⟩, ⟨1, 1, "B", [2], "demo", 7, 0⟩]
          [1] 7 "demo" 1)
      ∧ (knn_query demoDist
          [⟨1, 0, "A", [1], "demo", 7, 0⟩, ⟨1, 1, "B", [2], "demo", 7, 0⟩]
          [1] 7 "demo" 1).length ≤ 1
      ∧ (([⟨1, 0, "A", [1], "demo", 7, 0⟩,
           ⟨1, 1, "B", [2], "demo", 7, 0⟩].filter (inScope 7 "demo")).length < 1 →
          (knn_query demoDist
            [⟨1, 0, "A", [1], "demo", 7, 0⟩, ⟨1, 1, "B", [2], "demo", 7, 0⟩]
            [1] 7 "demo" 1).length
            = ([⟨1, 0, "A", [1], "demo", 7, 0⟩,
                ⟨1, 1, "B", [2], "demo", 7, 0⟩].filter (inScope 7 "demo")).length)) :=
  ⟨by decide,
    C4_result_sorted_within_limit demoDist
      [⟨1, 0, "A", [1], "demo", 7, 0⟩, ⟨1, 1, "B", [2], "demo", 7, 0⟩]
      [1] 7 "demo" 1 (by decide)⟩

/-- C5 counterexample: the SQL orders by the score column alone, with no
`(doc_id, chunk_id)` tie-break. Two records with identical embeddings (hence
identical score under any distance) stored in the order doc_id 2 before
doc_id 1 are returned in that store order — "B" (doc_id 2) first — whereas
the claim requires `(doc_id, chunk_id)` ascending, i.e. "A" before "B". -/
theorem C5_counterexample :
    knn_query demoDist
      [⟨2, 0, "B", [1], "demo", 7, 0⟩, ⟨1, 0, "A", [1], "demo", 7, 0⟩]
      [0] 7 "demo" 5
      = [("B", 1), ("A", 1)] := by
  decide

/-- C5 amended: `knn_query` is a pure function of the store's row list,
question embedding, scope and `top_k` — identical executions against an
unchanged store return identical ordered sequences — but records with
identical score appear in the order the store returns them (the sort is
stable with respect to store order), not sorted by `(doc_id, chunk_id)`. -/
theorem C5_tie_keeps_store_order (dist : List ℚ → List ℚ → ℚ)
    (qemb : List ℚ) (tenant_id : ℤ) (source : String) (a b : VectorRecord)
    (ha : inScope tenant_id source a = true)
    (hb : inScope tenant_id source b = true)
    (hd : dist a.embedding qemb = dist b.embedding qemb) :
    knn_query dist [a, b] qemb tenant_id source 2
      = [(a.content, dist a.embedding qemb), (b.content, dist b.embedding qemb)] := by
  simp [knn_query, List.filter, ha, hb, List.insertionSort, List.orderedInsert,
    byScore, hd]

/-- Witness for C5: the tied two-record store of the counterexample, with
the higher `doc_id` stored first and returned first. -/
theorem C5_tie_keeps_store_order_witness :
    (inScope 7 "demo" ⟨2, 0, "B", [1], "demo", 7, 0⟩ = true
      ∧ inScope 7 "demo" ⟨1, 0, "A", [1], "demo", 7, 0⟩ = true
      ∧ demoDist [1] [0] = demoDist [1] [0])
    ∧ knn_query demoDist
        [⟨2, 0, "B", [1], "demo", 7, 0⟩, ⟨1, 0, "A", [1], "demo", 7, 0⟩]
        [0] 7 "demo" 2
        = [("B", demoDist [1] [0]), ("A", demoDist [1] [0])] :=
  ⟨⟨by decide, by decide, rfl⟩,
    C5_tie_keeps_store_order demoDist [0] 7 "demo"
      ⟨2, 0, "B", [1], "demo", 7, 0⟩ ⟨1, 0, "A", [1], "demo", 7, 0⟩
      (by decide) (by decide) rfl⟩

/-- C6 counterexample: the code performs no scope or dimension validation.
For a scope with empty `source` and a query embedding of dimension 1 (≠ the
deployment dimension 384), the spec model rejects with `ScopeError` before
any retrieval, while the code's query executes the retrieval and returns a
stored row — it is not rejected and no error value exists in its type. -/
theorem C6_counterexample :
    knn_querySpec 384 demoDist [⟨1, 0, "x", [1], "", 88, 0⟩] [0] 88 "" 5
      = .error .scopeError
    ∧ knn_query demoDist [⟨1, 0, "x", [1], "", 88, 0⟩] [0] 88 "" 5 = [("x", 1)] :=
  ⟨rfl, by decide⟩

/-- C6 amended: `query_knn.py` has no `ScopeError` or
`DimensionMismatchError` path: a `knn_query` whose scope has an empty source
(or whose embedding dimension differs from the stored one) is not rejected —
the retrieval executes normally, interpolating the values into the SQL, and
returns exactly the rows matching the literal (possibly empty) scope. -/
theorem C6_empty_scope_not_rejected (dist : List ℚ → List ℚ → ℚ)
    (store : List VectorRecord) (qemb : List ℚ) (tenant_id : ℤ) (top_k : ℕ)
    (p : String × ℚ) (hp : p ∈ knn_query dist store qemb tenant_id "" top_k) :
    ∃ r' ∈ store, r'.tenant_id = tenant_id ∧ r'.source = ""
      ∧ p = (r'.content, dist r'.embedding qemb) :=
  knn_query_provenance dist store qemb tenant_id "" top_k p hp

/-- Witness for C6: a record stored with empty source is returned by the
empty-scope query rather than the query being rejected. -/
theorem C6_empty_scope_not_rejected_witness :
    (("x", (1 : ℚ)) ∈ knn_query demoDist [⟨1, 0, "x", [1], "", 88, 0⟩] [0] 88 "" 5)
    ∧ ∃ r' ∈ [(⟨1, 0, "x", [1], "", 88, 0⟩ : VectorRecord)],
        r'.tenant_id = 88 ∧ r'.source = ""
        ∧ ("x", (1 : ℚ)) = (r'.content, demoDist r'.embedding [0]) :=
  ⟨by decide,
    C6_empty_scope_not_rejected demoDist [⟨1, 0, "x", [1], "", 88, 0⟩]
      [0] 88 5 ("x", 1) (by decide)⟩

/-- The half-even rounding differs from its argument by at most one half. -/
theorem roundHalfEven_bounds (q : ℚ) :
    q - 1 / 2 ≤ (roundHalfEven q : ℚ) ∧ (roundHalfEven q : ℚ) ≤ q + 1 / 2 := by
  unfold roundHalfEven
  split_ifs with h1 h2
  · constructor <;> linarith
  · push_cast
    constructor <;> linarith
  · have h := abs_le.mp (abs_sub_round q)
    constructor <;> linarith [h.1, h.2]

/-- Two-decimal rounding keeps a value of `[0, 100]` inside `[0, 100]`. -/
theorem round2_bounds {q : ℚ} (h0 : 0 ≤ q) (h1 : q ≤ 100) :
    0 ≤ round2 q ∧ round2 q ≤ 100 := by
  obtain ⟨hl, hr⟩ := roundHalfEven_bounds (q * 100)
  have hq0 : (0 : ℚ) ≤ q * 100 := by positivity
  have hq1 : q * 100 ≤ 10000 := by nlinarith
  have hz0 : (0 : ℤ) ≤ roundHalfEven (q * 100) := by
    by_contra hneg
    push_neg at hneg
    have hneg1 : roundHalfEven (q * 100) ≤ -1 := by omega
    have : (roundHalfEven (q * 100) : ℚ) ≤ -1 := by exact_mod_cast hneg1
    linarith
  have hz1 : roundHalfEven (q * 100) ≤ 10000 := by
    by_contra hgt
    push_neg at hgt
    have hgt1 : (10001 : ℤ) ≤ roundHalfEven (q * 100) := by omega
    have : (10001 : ℚ) ≤ (roundHalfEven (q * 100) : ℚ) := by exact_mod_cast hgt1
    linarith
  unfold round2
  constructor
  · have : (0 : ℚ) ≤ (roundHalfEven (q * 100) : ℚ) := by exact_mod_cast hz0
    linarith
  · have : (roundHalfEven (q * 100) : ℚ) ≤ 10000 := by exact_mod_cast hz1
    linarith

/-- C7 counterexample: at a poll reading `active_tasks = 49`,
`pool_size = 48` (a reading the code does not exclude), the computed
utilization is `102.08`: it is the two-decimal rounding of the quotient, so
it differs from `active_tasks / pool_size * 100 = 102.0833…` exactly, and it
lies outside `[0, 100]` — the code clamps nothing. -/
theorem C7_counterexample :
    (check_background_pool_status 49 48).utilization_pct = 2552 / 25
    ∧ (check_background_pool_status 49 48).utilization_pct ≠ (49 : ℚ) / 48 * 100
    ∧ ¬ (check_background_pool_status 49 48).utilization_pct ≤ 100 := by
  norm_num [check_background_pool_status, round2, roundHalfEven, round_eq]

/-- C7 amended: every poll computes `free_threads = pool_size -
active_tasks`, `utilization_pct = round(active_tasks / pool_size * 100, 2)`
(the quotient rounded to two decimals, not the exact quotient), and
`is_full ⟺ free_threads ≤ 0`; the utilization lies in `[0, 100]` whenever
`0 ≤ active_tasks ≤ pool_size`. -/
theorem C7_pool_status_formulas (active_tasks pool_size : ℤ)
    (h0 : 0 ≤ active_tasks) (h1 : active_tasks ≤ pool_size)
    (h2 : 0 < pool_size) :
    (check_background_pool_status active_tasks pool_size).free_threads
      = pool_size - active_tasks
    ∧ (check_background_pool_status active_tasks pool_size).utilization_pct
      = round2 ((active_tasks : ℚ) / (pool_size : ℚ) * 100)
    ∧ 0 ≤ (check_background_pool_status active_tasks pool_size).utilization_pct
    ∧ (check_background_pool_status active_tasks pool_size).utilization_pct ≤ 100
    ∧ ((check_background_pool_status active_tasks pool_size).is_full = true
        ↔ pool_size - active_tasks ≤ 0) := by
  have hp0 : (0 : ℚ) < (pool_size : ℚ) := by exact_mod_cast h2
  have ha0 : (0 : ℚ) ≤ (active_tasks : ℚ) := by exact_mod_cast h0
  have hq0 : (0 : ℚ) ≤ (active_tasks : ℚ) / (pool_size : ℚ) * 100 := by positivity
  have hq1 : (active_tasks : ℚ) / (pool_size : ℚ) * 100 ≤ 100 := by
    have hle : (active_tasks : ℚ) ≤ (pool_size : ℚ) := by exact_mod_cast h1
    have : (active_tasks : ℚ) / (pool_size : ℚ) ≤ 1 := by
      rw [div_le_one hp0]
      exact hle
    nlinarith
  obtain ⟨hb0, hb1⟩ := round2_bounds hq0 hq1
  simp only [check_background_pool_status, if_pos h2, decide_eq_true_eq]
  exact ⟨trivial, trivial, hb0, hb1, trivial⟩

/-- Witness for C7 at the spec scenario `active_tasks = 16, pool_size = 16`:
`free_threads = 0`, `utilization_pct = 100`, `is_full = true`. -/
theorem C7_pool_status_formulas_witness :
    ((0 : ℤ) ≤ 16 ∧ (16 : ℤ) ≤ 16 ∧ (0 : ℤ) < 16)
    ∧ check_background_pool_status 16 16
        = { active_tasks := 16, pool_size := 16, free_threads := 0,
            utilization_pct := 100, is_full := true }
    ∧ ((check_background_pool_status 16 16).free_threads = 16 - 16
      ∧ (check_background_pool_status 16 16).utilization_pct
        = round2 (((16 : ℤ) : ℚ) / ((16 : ℤ) : ℚ) * 100)
      ∧ 0 ≤ (check_background_pool_status 16 16).utilization_pct
      ∧ (check_background_pool_status 16 16).utilization_pct ≤ 100
      ∧ ((check_background_pool_status 16 16).is_full = true
          ↔ (16 : ℤ) - 16 ≤ 0)) :=
  ⟨by decide,
    by norm_num [check_background_pool_status, round2, roundHalfEven,
      round_eq, PoolStatus.mk.injEq],
    C7_pool_status_formulas 16 16 (by decide) (by decide) (by decide)⟩

/-- C8: the CLEANUP flag never reaches `optimize_table_sync` without the
caller's explicit confirmation: every executed run decided by `main` has
`final = true` (FINAL is also the declared default of the API), its
`cleanup = true` only when the dedicated FINAL-CLEANUP prompt was answered
yes, and with that confirmation absent the decided mode has
`cleanup = false` (or the run is cancelled before executing). -/
theorem C8_cleanup_requires_confirmation (response cleanup_response : String)
    (final cleanup : Bool)
    (h : mainModeDecision response cleanup_response = some (final, cleanup)) :
    final = true
    ∧ (cleanup = true → confirmed cleanup_response = true)
    ∧ (confirmed cleanup_response = false → cleanup = false)
    ∧ optimize_final_default = true ∧ optimize_cleanup_default = false := by
  unfold mainModeDecision at h
  split_ifs at h with hc1 hc2 <;>
    simp_all [optimize_final_default, optimize_cleanup_default]

/-- Witness for C8: declining FINAL and confirming FINAL CLEANUP yields the
cleanup run, with the confirmation present. -/
theorem C8_cleanup_requires_confirmation_witness :
    mainModeDecision "no" "yes" = some (true, true)
    ∧ (true = true
      ∧ (true = true → confirmed "yes" = true)
      ∧ (confirmed "yes" = false → true = false)
      ∧ optimize_final_default = true ∧ optimize_cleanup_default = false) :=
  ⟨by decide, C8_cleanup_requires_confirmation "no" "yes" true true (by decide)⟩

/-- C9 counterexample: when the OPTIMIZE command fails, the supervisor does
not re-poll the pool status at all — the claim's "re-polls PoolStatus
exactly once to report the post-failure state" is false: the post-run poll
exists only in the success branch, so the failing run performs zero polls
after the command. -/
theorem C9_counterexample :
    (optimize_table_sync ⟨fun _ => 0, fun _ => 16, fun _ => some "boom"⟩
        "t" true false (fun i => (i : ℚ))).1 = false
    ∧ postCommandPolls
        (optimize_table_sync ⟨fun _ => 0, fun _ => 16, fun _ => some "boom"⟩
          "t" true false (fun i => (i : ℚ))).2 = 0 :=
  ⟨rfl, rfl⟩

/-- C9 amended: when the store command fails, the supervisor does not raise
and does not auto-retry: it catches the exception, reports Failed with the
elapsed time and the failure reason, and returns `False` so a subsequent run
can be attempted — but it performs no post-failure re-poll of PoolStatus;
its trace is exactly poll, set-sync, one OPTIMIZE attempt, failure report. -/
theorem C9_failure_reports_and_returns (cl : StoreClient) (table_name : String)
    (final cleanup : Bool) (clock : ℕ → ℚ) (reason : String)
    (h : cl.commandOutcome (optimizeQuery table_name final cleanup) = some reason) :
    (optimize_table_sync cl table_name final cleanup clock).1 = false
    ∧ (optimize_table_sync cl table_name final cleanup clock).2
        = [Event.pollStatus
            (check_background_pool_status (cl.pollActive 0) (cl.pollPool 0)),
           Event.setSyncMode,
           Event.execOptimize (optimizeQuery table_name final cleanup),
           Event.reportFailure (clock 1 - clock 0) reason]
    ∧ ((optimize_table_sync cl table_name final cleanup clock).2.filter isExec).length = 1
    ∧ postCommandPolls (optimize_table_sync cl table_name final cleanup clock).2 = 0 := by
  simp [optimize_table_sync, h, postCommandPolls, isExec, isPoll]

/-- Witness for C9 at a client whose OPTIMIZE command raises "boom". -/
theorem C9_failure_reports_and_returns_witness :
    StoreClient.commandOutcome ⟨fun _ => 0, fun _ => 16, fun _ => some "boom"⟩
        (optimizeQuery "events" true false) = some "boom"
    ∧ ((optimize_table_sync ⟨fun _ => 0, fun _ => 16, fun _ => some "boom"⟩
          "events" true false (fun i => (i : ℚ))).1 = false
      ∧ (optimize_table_sync ⟨fun _ => 0, fun _ => 16, fun _ => some "boom"⟩
          "events" true false (fun i => (i : ℚ))).2
          = [Event.pollStatus
              (check_background_pool_status
                (StoreClient.pollActive ⟨fun _ => 0, fun _ => 16, fun _ => some "boom"⟩ 0)
                (StoreClient.pollPool ⟨fun _ => 0, fun _ => 16, fun _ => some "boom"⟩ 0)),
             Event.setSyncMode,
             Event.execOptimize (optimizeQuery "events" true false),
             Event.reportFailure ((fun i => (i : ℚ)) 1 - (fun i => (i : ℚ)) 0) "boom"]
      ∧ ((optimize_table_sync ⟨fun _ => 0, fun _ => 16, fun _ => some "boom"⟩
          "events" true false (fun i => (i : ℚ))).2.filter isExec).length = 1
      ∧ postCommandPolls
          (optimize_table_sync ⟨fun _ => 0, fun _ => 16, fun _ => some "boom"⟩
            "events" true false (fun i => (i : ℚ))).2 = 0) :=
  ⟨rfl,
    C9_failure_reports_and_returns ⟨fun _ => 0, fun _ => 16, fun _ => some "boom"⟩
      "events" true false (fun i => (i : ℚ)) "boom" rfl⟩
